import Mathlib

/-!
# Verification development for the RFI-Scanner repository (the "RFI ALT" tree)

Shallow embedding of the core components named by the specification:

* the keyword category matcher and its vocabularies (`RFI ALT/nlp/rules.py`),
* the deterministic decision cascade (`RFI ALT/nlp/classifier.py`, `_decide`),
* the text-extraction cascade (`RFI ALT/Extractors/text_extractor.py`,
  `extract_text_with_meta`), with the outcomes of the third-party backend
  calls supplied as inputs,
* the retry controller, classification stage and out-of-scope override of
  `process_pdf` (`RFI ALT/workers.py`).

Python regular expressions over the hard-coded phrase lists are embedded as
executable scanners over `List Char`.  The embedding assumes ASCII text for
word-character and whitespace classification (Python's `\w`/`\s` are
unicode-aware; every input appearing in a theorem below is ASCII).
`Char.isWhitespace` models Python's `str.strip`/`\s` on the characters
space, tab, carriage return and newline.
-/

-- ===========================================================================
-- Generic machinery: Python regex fragments over lists of characters
-- ===========================================================================

/-- Python's `\w` (ASCII): letters, digits, underscore. -/
def isWordChar (c : Char) : Bool := c.isAlphanum || c = '_'

/-- Trailing `\b` after a pattern that ends in a word character: the rest of
the text must be empty or start with a non-word character. -/
def boundaryOk : List Char → Bool
  | [] => true
  | c :: _ => !(isWordChar c)

/-- Match one phrase (from `_phrases_to_regex` in `nlp/rules.py`) against the
head of the text: `re.escape(p).replace(r"\ ", r"\s+")` with `re.IGNORECASE`,
i.e. every character of the phrase matches case-insensitively and every space
inside the phrase matches one-or-more whitespace characters.  Returns the
text remaining after the match.  The fuel argument only bounds recursion; the
caller passes `text.length + 1`, which is never exhausted because every step
consumes at least one character of text. -/
def matchPhraseAux : Nat → List Char → List Char → Option (List Char)
  | 0, _, _ => none
  | _ + 1, [], rest => some rest
  | _ + 1, _ :: _, [] => none
  | f + 1, p :: ps, c :: cs =>
    if p = ' ' then
      if c.isWhitespace then matchPhraseAux f ps (cs.dropWhile Char.isWhitespace) else none
    else
      if p.toLower = c.toLower then matchPhraseAux f ps cs else none

def matchPhrase (ph text : List Char) : Option (List Char) :=
  matchPhraseAux (text.length + 1) ph text

/-- At the current position, try the alternatives of the phrase alternation in
their listed order (Python's alternation preference) and return the first
phrase that matches together with the remaining text.  Each alternative
carries `\b` on both sides; the leading `\b` is checked by the caller (all
phrases start with a word character), the trailing `\b` here (all phrases end
with a word character). -/
def firstMatchAt : List (List Char) → List Char → Option (List Char × List Char)
  | [], _ => none
  | ph :: phs, rest =>
    match matchPhrase ph rest with
    | some r => if boundaryOk r then some (ph, r) else firstMatchAt phs rest
    | none => firstMatchAt phs rest

/-- Model of the `re.finditer` scan for a phrase alternation: walk the text left to right;
at every position whose predecessor is not a word character try the
alternation; on a match record the phrase and continue after it
(non-overlapping), otherwise advance one character.  Every matched phrase
ends in a word character, so after a match the predecessor flag is true.
Fuel is the text length: every step consumes at least one character. -/
def scanTermsAux (phrases : List (List Char)) : Nat → Bool → List Char → List (List Char)
  | 0, _, _ => []
  | _ + 1, _, [] => []
  | f + 1, prevW, c :: cs =>
    match (if prevW then none else firstMatchAt phrases (c :: cs)) with
    | some (ph, r) => ph :: scanTermsAux phrases f true r
    | none => scanTermsAux phrases f (isWordChar c) cs

/-- Order-preserving deduplication with a seen-set, as in `_find_terms`
(`nlp/rules.py` lines 26-31).  A matched substring, lowercased and with
whitespace runs collapsed, is exactly the (already lowercase, single-spaced)
vocabulary phrase that matched it, so deduplication happens on phrases. -/
def dedupSeen : List (List Char) → List (List Char) → List (List Char)
  | _, [] => []
  | seen, x :: xs =>
    if seen.contains x then dedupSeen seen xs else x :: dedupSeen (x :: seen) xs

/-- Model of `_find_terms(rx, text)` from `nlp/rules.py`: the deduplicated list of
normalized matches of the phrase alternation, in first-seen order. -/
def findTerms (phrases : List String) (text : String) : List (List Char) :=
  dedupSeen [] (scanTermsAux (phrases.map String.toList) text.toList.length false text.toList)

-- ===========================================================================
-- Vocabulary buckets (`nlp/rules.py` lines 34-92, copied verbatim)
-- ===========================================================================

def STRONG_PHRASES : List String :=
  ["conflict", "conflicting",
   "discrepancy", "inconsistent", "mismatch", "deviation",
   "missing", "missed", "omission", "omitted", "not shown", "not indicated", "not detailed",
   "absent", "no detail", "no information",
   "error", "incorrect", "wrong", "mislabel", "mislabeled", "miscallout", "needs correction",
   "dimension conflict", "dimension incorrect", "dimension missing",
   "elevation conflict", "elevation incorrect", "elevation missing",
   "does not add up", "out of tolerance",
   "revise drawing", "issue revised drawing", "update drawing", "revise detail",
   "reissue sheet", "revise note", "cloud change", "clouded", "change required",
   "does not meet code", "not per code", "not per spec", "conflicts with spec", "violates spec"]

def MEDIUM_PHRASES : List String :=
  ["clarification", "unclear", "ambiguous", "please clarify", "need clarity", "cannot determine",
   "coordination issue", "interference", "clash", "collision", "obstruction", "fit issue",
   "load path unclear", "support not shown", "connection not shown", "not specified",
   "design not provided",
   "confirm revision", "advise if revision", "verify dimension"]

def DISC_PHRASES : List String :=
  ["connection detail", "bolt pattern", "weld size", "shear tab", "clip angle", "base plate",
   "stiffener", "camber", "moment connection", "hss cap", "hss closure",
   "lap splice", "development length", "bar spacing", "hook", "dowel", "embed", "embed plate",
   "headed stud", "shear stud", "shear key", "slab thickening", "cover", "rebar congestion",
   "anchor size", "anchor layout", "edge distance", "embed depth", "adhesive anchor",
   "post-installed anchor",
   "elevation mismatch", "slope conflict", "deflection exceed", "drift exceed",
   "camber not accounted", "bearing not provided",
   "footing size", "pier size", "grade beam", "pedestal", "pile cap", "uplift", "overturning",
   "shear wall boundary", "holdown", "hold-down",
   "sleeve through beam", "sleeve through slab", "opening in slab", "opening in wall",
   "penetration", "embed conflict", "stair support", "facade support", "façade support"]

def WEAK_PHRASES : List String :=
  ["please confirm", "please advise", "verify", "clarify",
   "request information", "question about",
   "detail reference", "sheet reference", "key note reference", "callout", "calling out"]

def NEGATOR_PHRASES : List String :=
  ["no change required",
   "for clarification only", "record only",
   "field condition only", "means and methods",
   "no impact to drawings", "does not affect drawings",
   "informational only"]

-- ===========================================================================
-- Auxiliary detectors: SK references and positive-action patterns
-- (`nlp/rules.py` lines 105-112)
-- ===========================================================================

/-- Case-insensitive literal match (used for the fixed words inside the
hand-translated auxiliary regexes). -/
def litCI : List Char → List Char → Option (List Char)
  | [], r => some r
  | _, [] => none
  | p :: ps, c :: cs => if p.toLower = c.toLower then litCI ps cs else none

/-- Pattern fragment `\s+` followed by a non-whitespace continuation: consume one mandatory
whitespace character, then the maximal whitespace run (greediness is
harmless because every continuation in the translated patterns starts with a
non-whitespace character). -/
def wsPlus : List Char → Option (List Char)
  | c :: cs => if c.isWhitespace then some (cs.dropWhile Char.isWhitespace) else none
  | [] => none

/-- Pattern fragment `\s*` followed by a non-whitespace continuation. -/
def wsStar (l : List Char) : List Char := l.dropWhile Char.isWhitespace

/-- Pattern fragment `\d+\b` with the greedy digit run (a shorter run would end before a digit,
a word character, and fail the boundary). -/
def digitsBoundary (l : List Char) : Bool :=
  !(l.takeWhile Char.isDigit).isEmpty && boundaryOk (l.dropWhile Char.isDigit)

/-- Pattern fragment `[- ]?\d+\b`: Python backtracks out of the optional separator only into a
digit test on the separator itself, which fails, so consuming a present
separator is faithful. -/
def sepDigitsBoundary (l : List Char) : Bool :=
  match l with
  | c :: r => (decide (c = '-' ∨ c = ' ') && digitsBoundary r) || digitsBoundary l
  | [] => false

/-- Pattern fragment `\d+[A-Z]?\b` (with `re.IGNORECASE`, `[A-Z]` is any ASCII letter):
after the maximal digit run, either one letter followed by a boundary, or a
boundary directly. -/
def digitsLetterBoundary (l : List Char) : Bool :=
  !(l.takeWhile Char.isDigit).isEmpty &&
    (match l.dropWhile Char.isDigit with
     | [] => true
     | c :: r => if c.isAlpha then boundaryOk r else !(isWordChar c))

def skWord : List Char := ['s', 'k']

/-- Pattern `SK_RE = \bsk[- ]?\d+[A-Z]?\b` tried at the current position (leading
boundary checked by the scanner). -/
def skAt (l : List Char) : Bool :=
  match litCI skWord l with
  | some r =>
    (match r with
     | c :: r2 => if c = '-' || c = ' ' then digitsLetterBoundary r2 else digitsLetterBoundary r
     | [] => false)
  | none => false

/-- The text remaining after the `SK_RE` match that `skAt` found (same
traversal as `skAt`, returning the remainder instead of a Bool). -/
def skRemainder (l : List Char) : List Char :=
  match litCI skWord l with
  | some r =>
    let afterSep : List Char :=
      match r with
      | c :: r2 => if c = '-' || c = ' ' then r2 else r
      | [] => r
    let afterDigits := afterSep.dropWhile Char.isDigit
    (match afterDigits with
     | c :: r3 => if c.isAlpha && boundaryOk r3 then r3 else afterDigits
     | [] => afterDigits)
  | none => l

/-- Count of non-overlapping matches (`len(SK_RE.findall(t))`): the scan
advances past each match; a match always ends in a word character (a digit or
the optional trailing letter). -/
def skCountAux : Nat → Bool → List Char → Nat
  | 0, _, _ => 0
  | _ + 1, _, [] => 0
  | f + 1, prevW, c :: cs =>
    if !prevW && skAt (c :: cs) then
      1 + skCountAux f true (skRemainder (c :: cs))
    else
      skCountAux f (isWordChar c) cs

def skCount (text : String) : Nat :=
  skCountAux text.toList.length false text.toList

/-- Generic presence search (`rx.search(t) is not None`) for a pattern whose
first element is a word character preceded by `\b`: try the position matcher
wherever the predecessor is not a word character. -/
def searchAux (matchAt : List Char → Bool) : Nat → Bool → List Char → Bool
  | 0, _, _ => false
  | _ + 1, _, [] => false
  | f + 1, prevW, c :: cs =>
    (!prevW && matchAt (c :: cs)) || searchAux matchAt f (isWordChar c) cs

def searchIn (matchAt : List Char → Bool) (text : String) : Bool :=
  searchAux matchAt text.toList.length false text.toList

/-- Alternation `(a1|a2|...)` of case-insensitive literals followed by a
continuation: succeeds if any alternative matches and its continuation
succeeds (full backtracking semantics). -/
def altK (alts : List (List Char)) (k : List Char → Bool) (l : List Char) : Bool :=
  alts.any fun a =>
    match litCI a l with
    | some r => k r
    | none => false

def wCloud : List Char := ['c', 'l', 'o', 'u', 'd']
def wEd : List Char := ['e', 'd']
def wIng : List Char := ['i', 'n', 'g']
def wOn : List Char := ['o', 'n']
def wIn : List Char := ['i', 'n']
def wSheet : List Char := ['s', 'h', 'e', 'e', 't']
def wSet : List Char := ['s', 'e', 't']
def wRevis : List Char := ['r', 'e', 'v', 'i', 's']
def wE : List Char := ['e']
def wIon : List Char := ['i', 'o', 'n']
def wDrawing : List Char := ['d', 'r', 'a', 'w', 'i', 'n', 'g']
def wPlan : List Char := ['p', 'l', 'a', 'n']
def wDetail : List Char := ['d', 'e', 't', 'a', 'i', 'l']
def wS : List Char := ['s']
def wSee : List Char := ['s', 'e', 'e']
def wAttached : List Char := ['a', 't', 't', 'a', 'c', 'h', 'e', 'd']
def wSketch : List Char := ['s', 'k', 'e', 't', 'c', 'h']
def wIssue : List Char := ['i', 's', 's', 'u', 'e']
def wAn : List Char := ['a', 'n']
def wA : List Char := ['a']

/-- Pattern `\bcloud(?:ed|ing)?\s+(?:on|in)\s+(?:sheet|set)\b` at this position. -/
def pos1At (l : List Char) : Bool :=
  match litCI wCloud l with
  | none => false
  | some r =>
    altK [wEd, wIng, []]
      (fun r2 =>
        match wsPlus r2 with
        | none => false
        | some r3 =>
          altK [wOn, wIn]
            (fun r4 =>
              match wsPlus r4 with
              | none => false
              | some r5 => altK [wSheet, wSet] boundaryOk r5)
            r3)
      r

/-- Pattern `\brevis(?:e|ed|ion)\s+(?:drawing|sheet|plan|detail)s?\b` at this
position. -/
def pos2At (l : List Char) : Bool :=
  match litCI wRevis l with
  | none => false
  | some r =>
    altK [wE, wEd, wIon]
      (fun r2 =>
        match wsPlus r2 with
        | none => false
        | some r3 =>
          altK [wDrawing, wSheet, wPlan, wDetail]
            (fun r4 =>
              (match litCI wS r4 with
               | some r5 => boundaryOk r5
               | none => false) || boundaryOk r4)
            r3)
      r

/-- Pattern `\bsee\s+attached\s+(?:sketch|sk)[- ]?\d+\b` at this position. -/
def pos3At (l : List Char) : Bool :=
  match litCI wSee l with
  | none => false
  | some r =>
    match wsPlus r with
    | none => false
    | some r2 =>
      match litCI wAttached r2 with
      | none => false
      | some r3 =>
        match wsPlus r3 with
        | none => false
        | some r4 => altK [wSketch, skWord] sepDigitsBoundary r4

/-- Pattern `\bissue\s+(?:an?\s*)?sk[- ]?\d+\b` at this position. -/
def pos4At (l : List Char) : Bool :=
  match litCI wIssue l with
  | none => false
  | some r =>
    match wsPlus r with
    | none => false
    | some r2 =>
      let tail : List Char → Bool := fun r3 =>
        match litCI skWord r3 with
        | some r4 => sepDigitsBoundary r4
        | none => false
      (match litCI wAn r2 with
       | some r3 => tail (wsStar r3)
       | none => false) ||
      (match litCI wA r2 with
       | some r3 => tail (wsStar r3)
       | none => false) ||
      tail r2

/-- Model of `pos_extra = sum(1 for rx in POS_RE if rx.search(t))`
(`nlp/rules.py` line 124). -/
def posCount (text : String) : Nat :=
  (if searchIn pos1At text then 1 else 0) +
  (if searchIn pos2At text then 1 else 0) +
  (if searchIn pos3At text then 1 else 0) +
  (if searchIn pos4At text then 1 else 0)

-- ===========================================================================
-- Category counts (`nlp/rules.py` `_analyze` / `category_counts`) and the
-- deterministic decision cascade (`nlp/classifier.py` `_decide`, lines 67-77)
-- ===========================================================================

/-- The count dictionary consumed by the decision cascade: distinct-phrase
counts for the five vocabularies plus the SK-reference occurrence count and
the positive-action pattern count.  (`_analyze` additionally computes a
`docref` flag, which the decision cascade never reads; `_decide`'s own
`_counts` has exactly these seven keys.) -/
structure Counts where
  strong : Nat
  medium : Nat
  disc : Nat
  weak : Nat
  neg : Nat
  sk : Nat
  posx : Nat
deriving DecidableEq

/-- Model of `category_counts` / `_analyze` (`nlp/rules.py` lines 115-139), restricted
to the seven fields the decision cascade reads. -/
def categoryCounts (text : String) : Counts :=
  { strong := (findTerms STRONG_PHRASES text).length
    medium := (findTerms MEDIUM_PHRASES text).length
    disc := (findTerms DISC_PHRASES text).length
    weak := (findTerms WEAK_PHRASES text).length
    neg := (findTerms NEGATOR_PHRASES text).length
    sk := skCount text
    posx := posCount text }

/-- The ordered decision cascade of `_decide` (`nlp/classifier.py` lines
67-77), as a function of the counts. -/
def decideFromCounts (c : Counts) : Bool × String :=
  let total := c.strong + c.medium + c.disc + c.weak + c.neg + c.sk + c.posx
  if total = 0 then (false, "InsufficientSignal")
  else if 0 < c.neg ∧ c.strong = 0 ∧ c.medium = 0 then (false, "NegatedOnly")
  else if 0 < c.strong then (true, "StrongSignal")
  else if 2 ≤ c.medium ∨ (1 ≤ c.medium ∧ 1 ≤ c.disc) then (true, "MediumCombo")
  else if 2 ≤ c.disc ∧ (0 < c.sk ∨ 0 < c.posx) then (true, "Discipline+Sketch")
  else if 0 < c.weak then (false, "WeakSignal")
  else (false, "InsufficientSignal")

-- ===========================================================================
-- Text extraction cascade (`Extractors/text_extractor.py`)
-- ===========================================================================

/-- Python `len(s.strip())`: length after removing leading and trailing
whitespace. -/
def stripLen (s : String) : Nat :=
  (((s.toList.dropWhile Char.isWhitespace).reverse).dropWhile Char.isWhitespace).length

/-- Per-engine sub-result kept in the metadata dictionary: the `ok` flag and
the `error` message (`""` when the engine call returned normally). -/
structure EngineMeta where
  ok : Bool
  error : String
deriving DecidableEq

/-- Outcome of the third-party call inside one native backend
(`_read_with_pymupdf` / `_read_with_pdfminer` / `_read_with_pdfplumber`):
`Except.ok text` when the library call returns text, `Except.error msg` when
it raises (the backend catches every exception and reports empty text). -/
def NativeOutcome : Type := Except String String

/-- Outcome of `_ocr_with_pdf2image`: `Except.ok (text, pages)` when pages
were rendered and recognized (per-page failures already folded into `text`),
`Except.error msg` when a dependency is missing, no pages were rendered, or
the conversion raised. -/
def OcrOutcome : Type := Except String (String × Nat)

/-- The body of each `_read_with_*` wrapper: on success the text with
`ok=True`, on any exception empty text with the error message recorded. -/
def readNative : NativeOutcome → String × EngineMeta
  | Except.ok t => (t, ⟨true, ""⟩)
  | Except.error e => ("", ⟨false, e⟩)

/-- The body of `_ocr_with_pdf2image`: on success the page text, page count
and `ok=True`; on failure empty text, zero pages and the error recorded. -/
def runOcr : OcrOutcome → String × Nat × EngineMeta
  | Except.ok (t, n) => (t, n, ⟨true, ""⟩)
  | Except.error e => ("", 0, ⟨false, e⟩)

/-- The metadata dictionary returned by `extract_text_with_meta`: the final
method tag, text length, OCR usage, and the per-engine sub-results that the
returning branch includes (`none` models a key absent from the dictionary;
elapsed-time fields are not modelled). -/
structure ExtractMeta where
  method : String
  text_len : Nat
  ocr_used : Bool
  ocr_pages : Nat
  pymupdf : Option EngineMeta := none
  pdfminer : Option EngineMeta := none
  pdfplumber : Option EngineMeta := none
  ocr : Option EngineMeta := none
deriving DecidableEq

/-- Model of `extract_text_with_meta` (`Extractors/text_extractor.py` lines 129-227),
with the backend outcomes supplied as inputs:

1. PyMuPDF; accept when `len(text.strip()) >= 30`.
2. pdfminer; keep whichever text has the strictly longer stripped length
   (ties keep the earlier text); `best` becomes `"pdfminer"` on improvement,
   else `"pymupdf"` if PyMuPDF succeeded, else `"none"`; accept at 30.
3. pdfplumber, same comparison; accept at 30.
4. If `ocr_if_needed`, run OCR; the OCR text becomes the result (method
   `"ocr"`, `ocr_used=True`) only when its stripped length is strictly
   longer, otherwise the native best is returned with `ocr_used` equal to
   the OCR `ok` flag and the OCR sub-result recorded.

The function is total: it returns a (possibly empty) string and metadata for
every combination of backend outcomes. -/
def extract_text_with_meta (b1 b2 b3 : NativeOutcome) (ocr_if_needed : Bool)
    (o : OcrOutcome) : String × ExtractMeta :=
  let text1 := (readNative b1).1
  let m1 := (readNative b1).2
  if 30 ≤ stripLen text1 then
    (text1, { method := "pymupdf", text_len := text1.length, ocr_used := false,
              ocr_pages := 0, pymupdf := some m1 })
  else
    let text2 := (readNative b2).1
    let m2 := (readNative b2).2
    let textA := if stripLen text1 < stripLen text2 then text2 else text1
    let bestA := if stripLen text1 < stripLen text2 then "pdfminer"
                 else if m1.ok then "pymupdf" else "none"
    if 30 ≤ stripLen textA then
      (textA, { method := bestA, text_len := textA.length, ocr_used := false,
                ocr_pages := 0, pymupdf := some m1, pdfminer := some m2 })
    else
      let text3 := (readNative b3).1
      let m3 := (readNative b3).2
      let textB := if stripLen textA < stripLen text3 then text3 else textA
      let bestB := if stripLen textA < stripLen text3 then "pdfplumber" else bestA
      if 30 ≤ stripLen textB then
        (textB, { method := bestB, text_len := textB.length, ocr_used := false,
                  ocr_pages := 0, pymupdf := some m1, pdfminer := some m2,
                  pdfplumber := some m3 })
      else if ocr_if_needed then
        let text4 := (runOcr o).1
        let pages4 := (runOcr o).2.1
        let m4 := (runOcr o).2.2
        if stripLen textB < stripLen text4 then
          (text4, { method := "ocr", text_len := text4.length, ocr_used := true,
                    ocr_pages := pages4, pymupdf := some m1, pdfminer := some m2,
                    pdfplumber := some m3, ocr := some m4 })
        else
          (textB, { method := bestB, text_len := textB.length, ocr_used := m4.ok,
                    ocr_pages := pages4, pymupdf := some m1, pdfminer := some m2,
                    pdfplumber := some m3, ocr := some m4 })
      else
        (textB, { method := bestB, text_len := textB.length, ocr_used := false,
                  ocr_pages := 0, pymupdf := some m1, pdfminer := some m2,
                  pdfplumber := some m3 })

-- ===========================================================================
-- Retry controller (`workers.py`, `process_pdf` lines 179-190)
-- ===========================================================================

def MIN_OK_LEN : Nat := 50

/-- Result of the retry controller, instrumented with the argument list of
the calls made to the cascade (in order), so that "invokes the cascade
exactly one more time with OCR forced on and the page limit raised" is a
statement about the model. -/
structure RetryResult where
  text : String
  attempts : Nat
  forced : Bool
  calls : List (Bool × Nat)
deriving DecidableEq

/-- The retry section of `process_pdf`: `ext` is the document's extraction
oracle — what `extract_text_with_meta` returns for given
`(ocr_if_needed, ocr_max_pages)` arguments (the cascade itself never raises,
so the `except` arm around the second call is dead).  A second attempt runs
exactly when the first text's stripped length is below `MIN_OK_LEN` and
`ocr_if_needed` is set; it forces OCR on with page limit
`max(ocr_max_pages, 20)`, and the second text replaces the first only when
strictly longer (stripped). -/
def processPdfRetry (ext : Bool → Nat → String) (ocr_if_needed : Bool)
    (ocr_max_pages : Nat) : RetryResult :=
  let text := ext ocr_if_needed ocr_max_pages
  if stripLen text < MIN_OK_LEN ∧ ocr_if_needed = true then
    let text2 := ext true (max ocr_max_pages 20)
    { text := if stripLen text < stripLen text2 then text2 else text
      attempts := 2
      forced := true
      calls := [(ocr_if_needed, ocr_max_pages), (true, max ocr_max_pages 20)] }
  else
    { text := text, attempts := 1, forced := false,
      calls := [(ocr_if_needed, ocr_max_pages)] }

-- ===========================================================================
-- Classifier failure (`nlp/classifier.py`) and the classification stage of
-- `process_pdf` (`workers.py` lines 201-211)
-- ===========================================================================

/-- The Python exceptions relevant to `classify`. -/
inductive PyExc where
  | attributeError : PyExc
  | nameError : PyExc
deriving DecidableEq

/-- Python `type(e).__name__`. -/
def pyExcName : PyExc → String
  | PyExc.attributeError => "AttributeError"
  | PyExc.nameError => "NameError"

/-- The names bound at the top level of `nlp/rules.py` (imports, helpers,
vocabularies, compiled patterns, and the public API).  The module defines no
name `decide`. -/
def rulesModuleNames : List String :=
  ["annotations", "re", "Tuple", "List", "Dict",
   "_phrases_to_regex", "_find_terms",
   "_STRONG_PHRASES", "STRONG_RX", "_MEDIUM_PHRASES", "MEDIUM_RX",
   "_DISC_PHRASES", "DISC_RX", "_WEAK_PHRASES", "WEAK_RX",
   "_NEGATOR_PHRASES", "NEG_RX",
   "DOC_REF_RE", "SK_RE", "POSITIVE_PATTERNS", "POS_RE",
   "_analyze", "category_counts", "extract_keywords", "score"]

/-- The fields of the dictionary `classify` would return that `process_pdf`
reads into the output row. -/
structure ClassifyOut where
  requiresDrawingRevision : String
  decisionBasis : String
deriving DecidableEq

/-- Model of `classify(text)` from `nlp/classifier.py`, in the run where
`from . import rules` succeeded (`RULES is not None`) — which is the case for
this source tree, since `rules.py` imports only `re` and `typing` and its
module body runs without raising.  The body executes
`try: RULES.decide(text or "")`; `rules.py` binds no top-level name `decide`
(see `rulesModuleNames`), so the attribute access raises `AttributeError`;
the `except Exception` handler then evaluates `_decide(text or "")`, and
`_decide` is bound only inside the `if RULES is None:` fallback block of
`classifier.py`, which did not execute — so the handler raises `NameError`,
which propagates out of `classify` for every input text. -/
def classifyALT (_text : String) : Except PyExc ClassifyOut :=
  Except.error PyExc.nameError

/-- The classification stage of `process_pdf` (`workers.py` lines 201-211):
on an exception from `classify`, append the warning
`f"classify:{type(e).__name__}"` and fall back to the fixed row fields
`RequiresDrawingRevision="No"`, `DecisionBasis="InsufficientSignal"`. -/
def classifyStage (text : String) : ClassifyOut × List String :=
  match classifyALT text with
  | Except.ok c => (c, [])
  | Except.error e =>
    ({ requiresDrawingRevision := "No", decisionBasis := "InsufficientSignal" },
     ["classify:" ++ pyExcName e])

-- ===========================================================================
-- Area / Phase detection and the out-of-scope override
-- (`workers.py` lines 24-78 and 219-228)
-- ===========================================================================

/-- The separator class `[-–—:]` of the area patterns. -/
def areaSep (c : Char) : Bool := c = '-' || c = '–' || c = '—' || c = ':'

def wArea : List Char := ['a', 'r', 'e', 'a']
def wLocation : List Char := ['l', 'o', 'c', 'a', 't', 'i', 'o', 'n']
def wPhase : List Char := ['p', 'h', 'a', 's', 'e']
def wTo : List Char := ['t', 'o']
def wThrough : List Char := ['t', 'h', 'r', 'o', 'u', 'g', 'h']
def wThru : List Char := ['t', 'h', 'r', 'u']
def wIi : List Char := ['i', 'i']
def wTwo : List Char := ['t', 'w', 'o']

/-- Pattern fragment `\s*[-–—:]?\s*` (the separator is not whitespace and the continuation is
not a separator, so greedy consumption is faithful). -/
def sepGap (l : List Char) : List Char :=
  let r := wsStar l
  match r with
  | c :: r2 => if areaSep c then wsStar r2 else r
  | [] => r

/-- Pattern `AREA_LETTER_RX = \barea\s*[-–—:]?\s*([A-Z])\b` at this position,
returning the captured letter and the remainder. -/
def areaLetterAt (l : List Char) : Option (Char × List Char) :=
  match litCI wArea l with
  | none => none
  | some r =>
    match sepGap r with
    | c :: r2 => if c.isAlpha && boundaryOk r2 then some (c, r2) else none
    | [] => none

/-- Pattern `LOCATION_AREA_RX = \blocation\s*[:\-–—]?\s*area\s*([A-Z])\b` at this
position. -/
def locationAreaAt (l : List Char) : Option (Char × List Char) :=
  match litCI wLocation l with
  | none => none
  | some r =>
    match litCI wArea (sepGap r) with
    | none => none
    | some r2 =>
      match wsStar r2 with
      | c :: r3 => if c.isAlpha && boundaryOk r3 then some (c, r3) else none
      | [] => none

/-- Pattern `RANGE_GK_RX = \bareas?\s+g\s*(?:-|–|—|to|through|thru)\s*k\b` at this
position. -/
def rangeGkAt (l : List Char) : Bool :=
  match litCI wArea l with
  | none => false
  | some r =>
    let afterG : List Char → Bool := fun r4 =>
      let r5 := wsStar r4
      match r5 with
      | k :: r6 => k.toLower = 'k' && boundaryOk r6
      | [] => false
    let fromWs : List Char → Bool := fun r1 =>
      match wsPlus r1 with
      | none => false
      | some r2 =>
        match r2 with
        | g :: r3 =>
          g.toLower = 'g' &&
            (let r4 := wsStar r3
             (match r4 with
              | c :: r5 => (c = '-' || c = '–' || c = '—') && afterG r5
              | [] => false) ||
             (match litCI wTo r4 with
              | some r5 => afterG r5
              | none => false) ||
             (match litCI wThrough r4 with
              | some r5 => afterG r5
              | none => false) ||
             (match litCI wThru r4 with
              | some r5 => afterG r5
              | none => false))
        | [] => false
    (match litCI wS r with
     | some r1 => fromWs r1
     | none => false) || fromWs r

/-- Pattern `PHASE2_RX = \bphase\s*[-–—:]?\s*(2|ii|two)\b` at this position. -/
def phase2At (l : List Char) : Bool :=
  match litCI wPhase l with
  | none => false
  | some r0 =>
    let r1 := sepGap r0
    (match r1 with
     | '2' :: r2 => boundaryOk r2
     | _ => false) ||
    (match litCI wIi r1 with
     | some r2 => boundaryOk r2
     | none => false) ||
    (match litCI wTwo r1 with
     | some r2 => boundaryOk r2
     | none => false)

/-- Model of `findall` for a single-letter-capture area pattern: non-overlapping scan
collecting the captured letters (the capture, a letter, is the last matched
character, so the predecessor flag is true after a match). -/
def areaFindAux (patAt : List Char → Option (Char × List Char)) :
    Nat → Bool → List Char → List Char
  | 0, _, _ => []
  | _ + 1, _, [] => []
  | f + 1, prevW, c :: cs =>
    match (if prevW then none else patAt (c :: cs)) with
    | some (letter, r) => letter :: areaFindAux patAt f true r
    | none => areaFindAux patAt f (isWordChar c) cs

/-- Model of `AREA_LETTER_RX.findall(t)`. -/
def areaLetters (text : String) : List Char :=
  areaFindAux areaLetterAt text.toList.length false text.toList

/-- Model of `LOCATION_AREA_RX.findall(t)`. -/
def locationAreaLetters (text : String) : List Char :=
  areaFindAux locationAreaAt text.toList.length false text.toList

/-- Python set `G_TO_K` with members G, H, I, J, K. -/
def G_TO_K : List Char := ['G', 'H', 'I', 'J', 'K']

/-- Model of `_first_gk` (`workers.py` lines 32-37): the first letter of the list
whose uppercase form is in G..K. -/
def firstGk : List Char → Option Char
  | [] => none
  | l :: ls => if G_TO_K.contains l.toUpper then some l.toUpper else firstGk ls

/-- Model of `_detect_area_phase_raw` (`workers.py` lines 39-78): returns
`(area_raw, out_of_scope)`. -/
def detectAreaPhaseRaw (text : String) : String × Bool :=
  let phase := searchIn phase2At text
  if searchIn rangeGkAt text then ("Areas G–K", false)
  else
    let locLetters := locationAreaLetters text
    let anyLetters := areaLetters text
    let letterLoc := firstGk locLetters
    let letterAny := firstGk anyLetters
    let gkLetter := match letterLoc with
      | some l => some l
      | none => letterAny
    let namedAreaAny := !locLetters.isEmpty || !anyLetters.isEmpty
    let nonGkPresent := (locLetters ++ anyLetters).any fun l => !G_TO_K.contains l.toUpper
    match gkLetter with
    | some l =>
      if phase then ("Area " ++ l.toString ++ " + Phase 2", false)
      else ("Area " ++ l.toString, false)
    | none =>
      if phase then ("Phase 2", false)
      else if namedAreaAny && nonGkPresent && !phase then ("", true)
      else ("", false)

/-- The out-of-scope override of `process_pdf` (`workers.py` lines 219-228):
when the detector reports out-of-scope, `RequiresDrawingRevision` is forced
to `"No"`; `DecisionBasis` is left untouched. -/
def scopeOverrideStage (text requiresRevision decisionBasis : String) :
    String × String :=
  let detected := detectAreaPhaseRaw text
  (if detected.2 then "No" else requiresRevision, decisionBasis)

-- ===========================================================================
-- Claim-specific fixtures
-- ===========================================================================

/-- The end-to-end scenario text of the specification (P-scenario / claim C3). -/
def c3Text : String :=
  "Please clarify: is the detail for information only? No change required, for clarification only."

/-- Concrete cascade run used to test the metadata invariant of claim C2:
PyMuPDF succeeds but extracts empty text (an empty or image-only document),
the other backends raise, OCR is disabled. -/
def c2CexRun : String × ExtractMeta :=
  extract_text_with_meta (Except.ok "") (Except.error "PDFSyntaxError: x")
    (Except.error "PDFSyntaxError: y") false (Except.error "ocr disabled")

/-- The best native text after stage 2 of the cascade (the `text` variable of
`extract_text_with_meta` after the pdfminer comparison). -/
def bestNativeText2 (b1 b2 : NativeOutcome) : String :=
  if stripLen (readNative b1).1 < stripLen (readNative b2).1
  then (readNative b2).1 else (readNative b1).1

/-- The best native text after stage 3 (the `text` variable after the
pdfplumber comparison): the value OCR is compared against. -/
def bestNativeText3 (b1 b2 b3 : NativeOutcome) : String :=
  if stripLen (bestNativeText2 b1 b2) < stripLen (readNative b3).1
  then (readNative b3).1 else bestNativeText2 b1 b2

/-- The cascade run with OCR disabled: the "prior best-effort native result"
of claims C2/C5 (the OCR outcome argument is irrelevant when
`ocr_if_needed = false`). -/
def nativeResult (b1 b2 b3 : NativeOutcome) : String × ExtractMeta :=
  extract_text_with_meta b1 b2 b3 false (Except.error "")

/-- A 60-character extraction result for the retry witness. -/
def c6LongText : String :=
  "OCR recovered this much longer text from the scanned pages.."

/-- Extraction oracle of the C6 witness: 10 characters of native text on the
first pass, a long OCR-backed text once the page limit reaches 20. -/
def c6Oracle : Bool → Nat → String :=
  fun _ limit => if 20 ≤ limit then c6LongText else "0123456789"

/-- Reading of "OCR was not already exhaustively tried" in claim C6: the
first pass did not already run with OCR enabled and the escalated page
budget.  (In particular OCR disabled means OCR was not tried at all.) -/
def ocrNotExhausted (ocr_if_needed : Bool) (limit : Nat) : Prop :=
  ¬(ocr_if_needed = true ∧ 20 ≤ limit)

/-- Claim C6 as stated: a second attempt (attempts = 2, forced, page limit
`max(original, 20)`) happens exactly when the first trimmed text is below 50
characters and OCR was not already exhaustively tried; otherwise one attempt;
never more than two. -/
def RetryClaim : Prop :=
  ∀ (ext : Bool → Nat → String) (ocr_if_needed : Bool) (limit : Nat),
    (stripLen (ext ocr_if_needed limit) < 50 ∧ ocrNotExhausted ocr_if_needed limit →
      (processPdfRetry ext ocr_if_needed limit).attempts = 2 ∧
      (processPdfRetry ext ocr_if_needed limit).forced = true ∧
      (processPdfRetry ext ocr_if_needed limit).calls =
        [(ocr_if_needed, limit), (true, max limit 20)]) ∧
    (¬(stripLen (ext ocr_if_needed limit) < 50 ∧ ocrNotExhausted ocr_if_needed limit) →
      (processPdfRetry ext ocr_if_needed limit).attempts = 1) ∧
    (processPdfRetry ext ocr_if_needed limit).attempts ≤ 2

/-- The `best` tag of the cascade after the pdfminer stage (the value of the
`best` variable of `extract_text_with_meta` after line 166). -/
def bestMethod2 (b1 b2 : NativeOutcome) : String :=
  if stripLen (readNative b1).1 < stripLen (readNative b2).1 then "pdfminer"
  else if (readNative b1).2.ok then "pymupdf" else "none"

/-- The `best` tag after the pdfplumber stage (line 183). -/
def bestMethod3 (b1 b2 b3 : NativeOutcome) : String :=
  if stripLen (bestNativeText2 b1 b2) < stripLen (readNative b3).1 then "pdfplumber"
  else bestMethod2 b1 b2

/-- The five possible method tags documented in the cascade docstring. -/
def methodTags : List String := ["pymupdf", "pdfminer", "pdfplumber", "ocr", "none"]

set_option maxRecDepth 4000000
set_option maxHeartbeats 1000000

-- ===========================================================================
-- Helper lemmas about the extraction cascade
-- ===========================================================================

/-- Unfolding of the cascade into its four stages (the `let`-bound stage
values named as the definitions above); definitional. -/
theorem extract_eq (b1 b2 b3 : NativeOutcome) (ocr : Bool) (o : OcrOutcome) :
    extract_text_with_meta b1 b2 b3 ocr o =
      if 30 ≤ stripLen (readNative b1).1 then
        ((readNative b1).1,
         { method := "pymupdf", text_len := (readNative b1).1.length,
           ocr_used := false, ocr_pages := 0, pymupdf := some (readNative b1).2 })
      else if 30 ≤ stripLen (bestNativeText2 b1 b2) then
        (bestNativeText2 b1 b2,
         { method := bestMethod2 b1 b2, text_len := (bestNativeText2 b1 b2).length,
           ocr_used := false, ocr_pages := 0, pymupdf := some (readNative b1).2,
           pdfminer := some (readNative b2).2 })
      else if 30 ≤ stripLen (bestNativeText3 b1 b2 b3) then
        (bestNativeText3 b1 b2 b3,
         { method := bestMethod3 b1 b2 b3, text_len := (bestNativeText3 b1 b2 b3).length,
           ocr_used := false, ocr_pages := 0, pymupdf := some (readNative b1).2,
           pdfminer := some (readNative b2).2, pdfplumber := some (readNative b3).2 })
      else if ocr = true then
        if stripLen (bestNativeText3 b1 b2 b3) < stripLen (runOcr o).1 then
          ((runOcr o).1,
           { method := "ocr", text_len := (runOcr o).1.length, ocr_used := true,
             ocr_pages := (runOcr o).2.1, pymupdf := some (readNative b1).2,
             pdfminer := some (readNative b2).2, pdfplumber := some (readNative b3).2,
             ocr := some (runOcr o).2.2 })
        else
          (bestNativeText3 b1 b2 b3,
           { method := bestMethod3 b1 b2 b3, text_len := (bestNativeText3 b1 b2 b3).length,
             ocr_used := (runOcr o).2.2.ok, ocr_pages := (runOcr o).2.1,
             pymupdf := some (readNative b1).2, pdfminer := some (readNative b2).2,
             pdfplumber := some (readNative b3).2, ocr := some (runOcr o).2.2 })
      else
        (bestNativeText3 b1 b2 b3,
         { method := bestMethod3 b1 b2 b3, text_len := (bestNativeText3 b1 b2 b3).length,
           ocr_used := false, ocr_pages := 0, pymupdf := some (readNative b1).2,
           pdfminer := some (readNative b2).2, pdfplumber := some (readNative b3).2 }) := by
  rfl

/-- A backend whose sub-result is not ok produced empty text. -/
theorem readNative_not_ok (b : NativeOutcome) (h : (readNative b).2.ok = false) :
    (readNative b).1 = "" := by
  obtain e | s := b
  · rfl
  · exact absurd h (by simp [readNative])

/-- The tag "none" after stage 2 forces empty stage-2 text. -/
theorem bestMethod2_none (b1 b2 : NativeOutcome) (h : bestMethod2 b1 b2 = "none") :
    bestNativeText2 b1 b2 = "" := by
  unfold bestMethod2 at h
  unfold bestNativeText2
  by_cases h1 : stripLen (readNative b1).1 < stripLen (readNative b2).1
  · rw [if_pos h1] at h
    exact absurd h (by decide)
  · rw [if_neg h1] at h
    rw [if_neg h1]
    by_cases h2 : (readNative b1).2.ok = true
    · rw [if_pos h2] at h
      exact absurd h (by decide)
    · exact readNative_not_ok b1 (by simpa using h2)

/-- The tag "none" after stage 3 forces empty stage-3 text. -/
theorem bestMethod3_none (b1 b2 b3 : NativeOutcome) (h : bestMethod3 b1 b2 b3 = "none") :
    bestNativeText3 b1 b2 b3 = "" := by
  unfold bestMethod3 at h
  unfold bestNativeText3
  by_cases h1 : stripLen (bestNativeText2 b1 b2) < stripLen (readNative b3).1
  · rw [if_pos h1] at h
    exact absurd h (by decide)
  · rw [if_neg h1] at h
    rw [if_neg h1]
    exact bestMethod2_none b1 b2 h

/-- The native best tag is never "ocr" (stage 2). -/
theorem bestMethod2_ne_ocr (b1 b2 : NativeOutcome) : bestMethod2 b1 b2 ≠ "ocr" := by
  unfold bestMethod2
  split_ifs <;> decide

/-- The native best tag is never "ocr" (stage 3). -/
theorem bestMethod3_ne_ocr (b1 b2 b3 : NativeOutcome) : bestMethod3 b1 b2 b3 ≠ "ocr" := by
  unfold bestMethod3
  split_ifs with h
  · decide
  · exact bestMethod2_ne_ocr b1 b2

/-- Positive stripped OCR text implies the OCR engine reported ok. -/
theorem runOcr_pos_ok (o : OcrOutcome) (n : Nat) (h : n < stripLen (runOcr o).1) :
    (runOcr o).2.2.ok = true := by
  obtain e | ⟨t, p⟩ := o
  · have h0 : stripLen (runOcr (Except.error e)).1 = 0 := rfl
    omega
  · rfl

/-- The stage-2 best text is at least as long (stripped) as stage 1's. -/
theorem stripLen_le_best2 (b1 b2 : NativeOutcome) :
    stripLen (readNative b1).1 ≤ stripLen (bestNativeText2 b1 b2) := by
  unfold bestNativeText2
  split_ifs with h <;> omega

/-- The stage-3 best text is at least as long (stripped) as stage 2's. -/
theorem best2_le_best3 (b1 b2 b3 : NativeOutcome) :
    stripLen (bestNativeText2 b1 b2) ≤ stripLen (bestNativeText3 b1 b2 b3) := by
  unfold bestNativeText3
  split_ifs with h <;> omega

/-- When the OCR-free cascade ends below the threshold, it ended in the final
fallback branch: every acceptance test failed and the result is the stage-3
best text and tag. -/
theorem nativeResult_below (b1 b2 b3 : NativeOutcome)
    (h : stripLen (nativeResult b1 b2 b3).1 < 30) :
    ¬ 30 ≤ stripLen (readNative b1).1 ∧
      ¬ 30 ≤ stripLen (bestNativeText2 b1 b2) ∧
      ¬ 30 ≤ stripLen (bestNativeText3 b1 b2 b3) ∧
      (nativeResult b1 b2 b3).1 = bestNativeText3 b1 b2 b3 ∧
      (nativeResult b1 b2 b3).2.method = bestMethod3 b1 b2 b3 := by
  unfold nativeResult at h ⊢
  rw [extract_eq] at h ⊢
  by_cases h1 : 30 ≤ stripLen (readNative b1).1
  · rw [if_pos h1] at h
    exact absurd (show stripLen (readNative b1).1 < 30 from h) (by omega)
  · rw [if_neg h1] at h ⊢
    by_cases h2 : 30 ≤ stripLen (bestNativeText2 b1 b2)
    · rw [if_pos h2] at h
      exact absurd (show stripLen (bestNativeText2 b1 b2) < 30 from h) (by omega)
    · rw [if_neg h2] at h ⊢
      by_cases h3 : 30 ≤ stripLen (bestNativeText3 b1 b2 b3)
      · rw [if_pos h3] at h
        exact absurd (show stripLen (bestNativeText3 b1 b2 b3) < 30 from h) (by omega)
      · rw [if_neg h3] at h ⊢
        rw [if_neg (show ¬ ((false : Bool) = true) by decide)] at h ⊢
        exact ⟨h1, h2, h3, rfl, rfl⟩

/-- The stage-2 tag is one of the documented tags. -/
theorem bestMethod2_mem (b1 b2 : NativeOutcome) : bestMethod2 b1 b2 ∈ methodTags := by
  unfold bestMethod2
  split_ifs <;> decide

/-- The stage-3 tag is one of the documented tags. -/
theorem bestMethod3_mem (b1 b2 b3 : NativeOutcome) : bestMethod3 b1 b2 b3 ∈ methodTags := by
  unfold bestMethod3
  split_ifs with h
  · decide
  · exact bestMethod2_mem b1 b2

-- ===========================================================================
-- Claim theorems
-- ===========================================================================

/-- C1: in the ALT pipeline, with the `nlp.rules` module imported successfully
(as it is in this source tree), `classify` raises NameError for every input
text — `rules.py` binds no top-level name `decide`, so `RULES.decide` raises
AttributeError, and the except-handler calls `_decide`, which is defined only
in the RULES-is-None fallback block — and the classification stage of
`process_pdf` therefore catches the exception and emits
RequiresDrawingRevision "No", DecisionBasis "InsufficientSignal" with a
"classify:NameError" warning, regardless of the document's text. -/
theorem classify_always_nameError (text : String) :
    rulesModuleNames.contains "decide" = false ∧
      classifyALT text = Except.error PyExc.nameError ∧
      classifyStage text =
        ({ requiresDrawingRevision := "No", decisionBasis := "InsufficientSignal" },
         ["classify:NameError"]) := by
  refine ⟨by decide, rfl, rfl⟩

/-- C2 counterexample: a run of the cascade in which PyMuPDF succeeds with
empty text, the other backends fail, and OCR is disabled returns empty text
with method "pymupdf", so "method = none iff text empty" is false as stated. -/
theorem c2_meta_invariant_cex :
    ¬((c2CexRun.2.method = "none" ↔ c2CexRun.1 = "") ∧
      (c2CexRun.2.ocr_used = true → c2CexRun.2.method = "ocr")) := by
  decide

/-- C2 amended: for every result of the extraction cascade, method "none"
implies the text is empty (the converse fails: a backend can succeed with
empty output and keep its tag); method "ocr" implies ocr_used; and ocr_used
implies OCR was enabled and the OCR engine reported success — but the method
may still be a native tag when the OCR text was not strictly longer. -/
theorem extract_meta_flags (b1 b2 b3 : NativeOutcome) (ocr : Bool) (o : OcrOutcome) :
    ((extract_text_with_meta b1 b2 b3 ocr o).2.method = "none" →
      (extract_text_with_meta b1 b2 b3 ocr o).1 = "") ∧
    ((extract_text_with_meta b1 b2 b3 ocr o).2.method = "ocr" →
      (extract_text_with_meta b1 b2 b3 ocr o).2.ocr_used = true) ∧
    ((extract_text_with_meta b1 b2 b3 ocr o).2.ocr_used = true →
      ocr = true ∧ (runOcr o).2.2.ok = true) := by
  rw [extract_eq]
  split_ifs with h1 h2 h3 h4 h5
  · exact ⟨fun h => absurd (show ("pymupdf" : String) = "none" from h) (by decide),
      fun h => absurd (show ("pymupdf" : String) = "ocr" from h) (by decide),
      fun h => nomatch h⟩
  · exact ⟨fun h => bestMethod2_none b1 b2 h,
      fun h => absurd h (bestMethod2_ne_ocr b1 b2),
      fun h => nomatch h⟩
  · exact ⟨fun h => bestMethod3_none b1 b2 b3 h,
      fun h => absurd h (bestMethod3_ne_ocr b1 b2 b3),
      fun h => nomatch h⟩
  · exact ⟨fun h => absurd (show ("ocr" : String) = "none" from h) (by decide),
      fun _ => rfl,
      fun _ => ⟨h4, runOcr_pos_ok o _ h5⟩⟩
  · exact ⟨fun h => bestMethod3_none b1 b2 b3 h,
      fun h => absurd h (bestMethod3_ne_ocr b1 b2 b3),
      fun h => ⟨h4, h⟩⟩
  · exact ⟨fun h => bestMethod3_none b1 b2 b3 h,
      fun h => absurd h (bestMethod3_ne_ocr b1 b2 b3),
      fun h => nomatch h⟩

/-- Witness for C2 amended: all backends fail, no OCR — the method is "none"
and the returned text is indeed empty. -/
theorem extract_meta_flags_witness :
    (extract_text_with_meta (Except.error "a") (Except.error "b") (Except.error "c")
        false (Except.error "d")).1 = "" :=
  (extract_meta_flags (Except.error "a") (Except.error "b") (Except.error "c")
      false (Except.error "d")).1 (by decide)

/-- C3 counterexample: on the scenario text the matcher does NOT report
strong = 0 and medium = 0 — the strong phrase "change required" matches
inside "No change required" — so requires = false with basis NegatedOnly is
false on the code. -/
theorem c3_negated_only_cex :
    ¬(1 ≤ (categoryCounts c3Text).neg ∧ (categoryCounts c3Text).strong = 0 ∧
      (categoryCounts c3Text).medium = 0 ∧
      decideFromCounts (categoryCounts c3Text) = (false, "NegatedOnly")) := by
  decide

/-- C3 amended: on the scenario text the matcher yields negator 2
("no change required", "for clarification only") but also strong 1
("change required", matched inside "No change required"), medium 2
("please clarify", "clarification") and weak 1 ("clarify"); the decision
cascade therefore returns requires = true with basis StrongSignal. -/
theorem c3_strong_wins :
    categoryCounts c3Text = Counts.mk 1 2 0 1 2 0 0 ∧
      decideFromCounts (categoryCounts c3Text) = (true, "StrongSignal") := by
  refine ⟨by decide, by decide⟩

/-- C4: when the first backend (PyMuPDF) returns text whose stripped length
meets the acceptance threshold 30, the cascade returns immediately with that
text and method "pymupdf"; the result is independent of the other backends
and of OCR, and their sub-results are absent from the metadata. -/
theorem extract_short_circuit (s : String) (b2 b3 : NativeOutcome) (ocr : Bool)
    (o : OcrOutcome) (h : 30 ≤ stripLen s) :
    extract_text_with_meta (Except.ok s) b2 b3 ocr o =
      (s, { method := "pymupdf", text_len := s.length, ocr_used := false,
            ocr_pages := 0, pymupdf := some ⟨true, ""⟩ }) := by
  simp only [extract_text_with_meta, readNative]
  rw [if_pos h]

/-- Witness for C4: a 30-character text accepted at stage one while the other
backends fail and OCR is enabled. -/
theorem extract_short_circuit_witness :
    extract_text_with_meta (Except.ok "abcdefghijklmnopqrstuvwxyz0123")
        (Except.error "x") (Except.error "y") true (Except.error "z") =
      ("abcdefghijklmnopqrstuvwxyz0123",
       { method := "pymupdf", text_len := 30, ocr_used := false,
         ocr_pages := 0, pymupdf := some ⟨true, ""⟩ }) :=
  extract_short_circuit "abcdefghijklmnopqrstuvwxyz0123" (Except.error "x")
    (Except.error "y") true (Except.error "z") (by decide)

/-- C5: when the native best-effort result is below the threshold and OCR is
enabled, the OCR text becomes the final result with method "ocr" exactly when
its stripped length is strictly longer than the native best; otherwise — in
particular whenever OCR fails — the native text and method are returned
unchanged, with the OCR sub-result (ok flag and failure message) recorded in
the metadata; no branch raises. -/
theorem extract_ocr_gate (b1 b2 b3 : NativeOutcome) (o : OcrOutcome)
    (h : stripLen (nativeResult b1 b2 b3).1 < 30) :
    (stripLen (nativeResult b1 b2 b3).1 < stripLen (runOcr o).1 →
      extract_text_with_meta b1 b2 b3 true o =
        ((runOcr o).1,
         { method := "ocr", text_len := (runOcr o).1.length, ocr_used := true,
           ocr_pages := (runOcr o).2.1, pymupdf := some (readNative b1).2,
           pdfminer := some (readNative b2).2, pdfplumber := some (readNative b3).2,
           ocr := some (runOcr o).2.2 })) ∧
    (¬ stripLen (nativeResult b1 b2 b3).1 < stripLen (runOcr o).1 →
      (extract_text_with_meta b1 b2 b3 true o).1 = (nativeResult b1 b2 b3).1 ∧
      (extract_text_with_meta b1 b2 b3 true o).2.method = (nativeResult b1 b2 b3).2.method ∧
      (extract_text_with_meta b1 b2 b3 true o).2.ocr = some (runOcr o).2.2 ∧
      (extract_text_with_meta b1 b2 b3 true o).2.ocr_used = (runOcr o).2.2.ok) := by
  obtain ⟨h1, h2, h3, htext, hmeth⟩ := nativeResult_below b1 b2 b3 h
  rw [htext]
  constructor
  · intro hcmp
    rw [extract_eq, if_neg h1, if_neg h2, if_neg h3, if_pos rfl, if_pos hcmp]
  · intro hcmp
    rw [extract_eq, if_neg h1, if_neg h2, if_neg h3, if_pos rfl, if_neg hcmp]
    exact ⟨rfl, hmeth.symm, rfl, rfl⟩

/-- Witness for C5: all native backends fail, OCR recovers 19 characters and
becomes the result with method "ocr". -/
theorem extract_ocr_gate_witness :
    extract_text_with_meta (Except.error "fitz gone") (Except.error "miner gone")
        (Except.error "plumber gone") true (Except.ok ("Recovered page text", 2)) =
      ("Recovered page text",
       { method := "ocr", text_len := 19, ocr_used := true, ocr_pages := 2,
         pymupdf := some ⟨false, "fitz gone"⟩, pdfminer := some ⟨false, "miner gone"⟩,
         pdfplumber := some ⟨false, "plumber gone"⟩, ocr := some ⟨true, ""⟩ }) :=
  (extract_ocr_gate (Except.error "fitz gone") (Except.error "miner gone")
      (Except.error "plumber gone") (Except.ok ("Recovered page text", 2))
      (by decide)).1 (by decide)

/-- C6 counterexample: claim C6 conditions the retry on OCR not having been
exhaustively tried, so with OCR disabled (never tried at all) and a
10-character first result it requires a second attempt — but the code guards
the retry with `ocr_if_needed` and records a single attempt. -/
theorem retry_claim_false : ¬RetryClaim := by
  intro hclaim
  have h := (hclaim (fun _ _ => "0123456789") false 5).1
    ⟨by decide, fun hc => nomatch hc.1⟩
  have h1 : (processPdfRetry (fun _ _ => "0123456789") false 5).attempts = 1 := by decide
  rw [h.1] at h1
  exact absurd h1 (by decide)

/-- C6 amended: the retry controller makes a second attempt exactly when the
first trimmed text is below 50 characters AND the caller enabled OCR
(`ocr_if_needed`), regardless of whether the first pass already used the
escalated page budget and even though OCR was never tried when it is
disabled; the second call forces OCR on with page limit `max(original, 20)`,
the strictly longer trimmed text wins (ties keep the first), attempts is 2
with forced = true in that case and 1 otherwise, and never exceeds 2. -/
theorem retry_characterization (ext : Bool → Nat → String) (ocr_if_needed : Bool)
    (limit : Nat) :
    (stripLen (ext ocr_if_needed limit) < 50 ∧ ocr_if_needed = true →
      processPdfRetry ext ocr_if_needed limit =
        { text := if stripLen (ext ocr_if_needed limit) <
                      stripLen (ext true (max limit 20))
                  then ext true (max limit 20) else ext ocr_if_needed limit
          attempts := 2
          forced := true
          calls := [(ocr_if_needed, limit), (true, max limit 20)] }) ∧
    (¬(stripLen (ext ocr_if_needed limit) < 50 ∧ ocr_if_needed = true) →
      processPdfRetry ext ocr_if_needed limit =
        { text := ext ocr_if_needed limit, attempts := 1, forced := false,
          calls := [(ocr_if_needed, limit)] }) ∧
    (processPdfRetry ext ocr_if_needed limit).attempts ≤ 2 := by
  unfold processPdfRetry MIN_OK_LEN
  by_cases h : stripLen (ext ocr_if_needed limit) < 50 ∧ ocr_if_needed = true
  · rw [if_pos h]
    exact ⟨fun _ => rfl, fun hn => absurd h hn, show (2 : Nat) ≤ 2 by omega⟩
  · rw [if_neg h]
    exact ⟨fun hp => absurd hp h, fun _ => rfl, show (1 : Nat) ≤ 2 by omega⟩

/-- Witness for C6 amended: the claim's own instance — 10 characters of
first-pass text with OCR enabled and page limit 5 triggers a second call at
page limit 20 and attempts = 2, and the longer second text wins. -/
theorem retry_characterization_witness :
    (processPdfRetry c6Oracle true 5).attempts = 2 ∧
      (processPdfRetry c6Oracle true 5).calls = [(true, 5), (true, 20)] ∧
      (processPdfRetry c6Oracle true 5).text = c6LongText := by
  have h := (retry_characterization c6Oracle true 5).1 ⟨by decide, rfl⟩
  rw [h]
  exact ⟨rfl, by decide, by decide⟩

/-- C7: for every counts input with strong count > 0, the decision cascade
returns requires = true with basis StrongSignal, overriding the negator,
medium, discipline and weak rules. -/
theorem decide_strong_overrides (c : Counts) (h : 0 < c.strong) :
    decideFromCounts c = (true, "StrongSignal") := by
  simp only [decideFromCounts]
  split_ifs <;> first | rfl | omega

/-- Witness for C7 at the counts of the claim: strong 1, medium 5, negator 5
decides to StrongSignal with requires = true. -/
theorem decide_strong_overrides_witness :
    0 < (Counts.mk 1 5 0 0 5 0 0).strong ∧
      decideFromCounts (Counts.mk 1 5 0 0 5 0 0) = (true, "StrongSignal") :=
  ⟨by decide, decide_strong_overrides (Counts.mk 1 5 0 0 5 0 0) (by decide)⟩

/-- C8: all-zero counts decide to InsufficientSignal with requires = false,
and the matcher yields all-zero counts on the empty string, so classifying
empty text produces exactly this outcome. -/
theorem decide_all_zero_insufficient :
    decideFromCounts (Counts.mk 0 0 0 0 0 0 0) = (false, "InsufficientSignal") ∧
      categoryCounts "" = Counts.mk 0 0 0 0 0 0 0 ∧
      decideFromCounts (categoryCounts "") = (false, "InsufficientSignal") := by
  refine ⟨by decide, by decide, by decide⟩

/-- C9: the extraction cascade is total — it returns a (possibly empty)
string and metadata whose method is one of the five documented tags for every
combination of backend outcomes — and every failure of an invoked backend
(including missing-dependency conditions) is recorded in that backend's
sub-result error field. -/
theorem extract_total_records (b1 b2 b3 : NativeOutcome) (ocr : Bool) (o : OcrOutcome) :
    ((extract_text_with_meta b1 b2 b3 ocr o).2.method ∈ methodTags) ∧
    (∀ e, b1 = Except.error e →
      (extract_text_with_meta b1 b2 b3 ocr o).2.pymupdf = some ⟨false, e⟩) ∧
    (∀ e, b2 = Except.error e → stripLen (readNative b1).1 < 30 →
      (extract_text_with_meta b1 b2 b3 ocr o).2.pdfminer = some ⟨false, e⟩) ∧
    (∀ e, b3 = Except.error e → stripLen (bestNativeText2 b1 b2) < 30 →
      (extract_text_with_meta b1 b2 b3 ocr o).2.pdfplumber = some ⟨false, e⟩) ∧
    (∀ e, o = Except.error e → ocr = true → stripLen (bestNativeText3 b1 b2 b3) < 30 →
      (extract_text_with_meta b1 b2 b3 ocr o).2.ocr = some ⟨false, e⟩) := by
  rw [extract_eq]
  split_ifs with h1 h2 h3 h4 h5
  · refine ⟨show ("pymupdf" : String) ∈ methodTags by decide,
      fun e he => ?_, fun e he hs => ?_, fun e he hs => ?_, fun e he ho hs => ?_⟩
    · subst he
      rfl
    · omega
    · have := stripLen_le_best2 b1 b2
      omega
    · have ha := stripLen_le_best2 b1 b2
      have hb := best2_le_best3 b1 b2 b3
      omega
  · refine ⟨bestMethod2_mem b1 b2,
      fun e he => ?_, fun e he hs => ?_, fun e he hs => ?_, fun e he ho hs => ?_⟩
    · subst he
      rfl
    · subst he
      rfl
    · omega
    · have hb := best2_le_best3 b1 b2 b3
      omega
  · refine ⟨bestMethod3_mem b1 b2 b3,
      fun e he => ?_, fun e he hs => ?_, fun e he hs => ?_, fun e he ho hs => ?_⟩
    · subst he
      rfl
    · subst he
      rfl
    · subst he
      rfl
    · omega
  · refine ⟨show ("ocr" : String) ∈ methodTags by decide,
      fun e he => ?_, fun e he hs => ?_, fun e he hs => ?_, fun e he ho hs => ?_⟩ <;>
      subst he <;> rfl
  · refine ⟨bestMethod3_mem b1 b2 b3,
      fun e he => ?_, fun e he hs => ?_, fun e he hs => ?_, fun e he ho hs => ?_⟩ <;>
      subst he <;> rfl
  · refine ⟨bestMethod3_mem b1 b2 b3,
      fun e he => ?_, fun e he hs => ?_, fun e he hs => ?_, fun e he ho hs => ?_⟩
    · subst he
      rfl
    · subst he
      rfl
    · subst he
      rfl
    · exact absurd ho h4

/-- Witness for C9: every backend and OCR fail with distinct messages; the
OCR failure is recorded in the metadata's ocr sub-result. -/
theorem extract_total_records_witness :
    (extract_text_with_meta (Except.error "ImportError: fitz") (Except.error "miner")
        (Except.error "plumber") true (Except.error "pdf2image_missing")).2.ocr =
      some ⟨false, "pdf2image_missing"⟩ :=
  (extract_total_records (Except.error "ImportError: fitz") (Except.error "miner")
      (Except.error "plumber") true (Except.error "pdf2image_missing")).2.2.2.2
    "pdf2image_missing" rfl rfl (by decide)

/-- C10: for every text in which the area patterns find only letters outside
G–K (no G–K letter, no explicit G–K range) and the Phase-2 pattern finds
nothing, the detector reports out-of-scope and `process_pdf` forces the row's
RequiresDrawingRevision to "No" while DecisionBasis keeps the classifier's
basis tag unchanged. -/
theorem scope_override (text req basis : String)
    (hrange : searchIn rangeGkAt text = false)
    (hphase : searchIn phase2At text = false)
    (hnogkloc : firstGk (locationAreaLetters text) = none)
    (hnogkany : firstGk (areaLetters text) = none)
    (hnon : (locationAreaLetters text ++ areaLetters text).any
        (fun l => !G_TO_K.contains l.toUpper) = true) :
    (detectAreaPhaseRaw text).2 = true ∧
      scopeOverrideStage text req basis = ("No", basis) := by
  have hne : (!(locationAreaLetters text).isEmpty || !(areaLetters text).isEmpty) = true := by
    rcases List.any_eq_true.mp hnon with ⟨x, hx, _⟩
    rcases List.mem_append.mp hx with hm | hm
    · cases hl : locationAreaLetters text with
      | nil => rw [hl] at hm; cases hm
      | cons a as => simp [hl]
    · cases hl : areaLetters text with
      | nil => rw [hl] at hm; cases hm
      | cons a as => simp [hl]
  have hx : (∃ x ∈ locationAreaLetters text, x.toUpper ∉ G_TO_K) ∨
      ∃ x ∈ areaLetters text, x.toUpper ∉ G_TO_K := by
    rcases List.any_eq_true.mp hnon with ⟨x, hxmem, hxp⟩
    have hnotmem : x.toUpper ∉ G_TO_K := by simpa using hxp
    rcases List.mem_append.mp hxmem with hm | hm
    · exact Or.inl ⟨x, hm, hnotmem⟩
    · exact Or.inr ⟨x, hm, hnotmem⟩
  have hdet : (detectAreaPhaseRaw text).2 = true := by
    simp [detectAreaPhaseRaw, hrange, hphase, hnogkloc, hnogkany, hnon, hne]
    rw [if_pos hx]
  exact ⟨hdet, by simp [scopeOverrideStage, hdet]⟩

/-- Witness for C10: the claim's example text "Location: Area C" with a
classifier verdict of Yes/StrongSignal — the row flag is forced to "No" and
the basis stays "StrongSignal". -/
theorem scope_override_witness :
    (detectAreaPhaseRaw "Location: Area C").2 = true ∧
      scopeOverrideStage "Location: Area C" "Yes" "StrongSignal" = ("No", "StrongSignal") :=
  scope_override "Location: Area C" "Yes" "StrongSignal" (by decide) (by decide)
    (by decide) (by decide) (by decide)
